import Mathlib

/-!
Verification of the page-layout and document-assembly engine of
`book_generator_gui.py` (low-content book generator).

The engine is embedded shallowly: physical measurements are exact
rationals (`ℚ`), the ReportLab drawing surface is replaced by an
inductive command type `Cmd`, and each `generate_*` function of the
source becomes a pure Lean function returning the ordered list of
drawing commands it would issue.  Python `while` loops over rationals
are embedded as fuel-indexed structural recursions; the canonical fuel
passed at each call site is proved sufficient (the loop result is
stable under any larger fuel), which matches the Python loop semantics
whenever the step (spacing) is positive.  Python exceptions become
`Except String`; external resource outcomes (file existence, image and
font load success) are an explicit `Env` record.
-/

namespace BookMaker

/-- One primitive operation issued to the drawing surface (ReportLab
canvas), plus the document-lifecycle events (canvas creation and
final save). -/
inductive Cmd where
  | setLineWidth (w : ℚ)
  | line (x1 y1 x2 y2 : ℚ)
  | setFillColorRGB (r g b : ℚ)
  | circle (x y radius : ℚ) (fill stroke : Bool)
  | rect (x y w h : ℚ) (fill : Bool)
  | drawImage (path : String) (x y w h : ℚ)
  | setFont (name : String) (size : ℚ)
  | drawString (x y : ℚ) (s : String)
  | drawCentredString (x y : ℚ) (s : String)
  | saveState
  | restoreState
  | setFillAlpha (a : ℚ)
  | translate (dx dy : ℚ)
  | rotate (deg : ℚ)
  | showPage
  | openCanvas (filename : String)
  | saveCanvas
deriving DecidableEq

/-- The four margin values, in inches (source: the `margins` dict). -/
structure Margins where
  left : ℚ
  right : ℚ
  top : ℚ
  bottom : ℚ
deriving DecidableEq

/-- The usable content rectangle in points (source lines 94-97 of
`generate_interior_page`). -/
structure ContentRect where
  left : ℚ
  right : ℚ
  top : ℚ
  bottom : ℚ
deriving DecidableEq

/-- `inches_to_points`: convert inches to PDF points (1 inch = 72
points), source line 33-35. -/
def inches_to_points (inches : ℚ) : ℚ :=
  inches * 72

/-- Source lines 94-97: the content rectangle computed by
`generate_interior_page` from page size (points) and margins (inches). -/
def resolveContentRect (width_pt height_pt : ℚ) (margins : Margins) : ContentRect :=
  { left := inches_to_points margins.left
    right := width_pt - inches_to_points margins.right
    top := height_pt - inches_to_points margins.top
    bottom := inches_to_points margins.bottom }

/-- Number of iterations of a descending loop `while y > bottom: y -= spacing`
starting at `y` (for positive `spacing`). -/
def descCount (bottom spacing y : ℚ) : ℕ :=
  (⌈(y - bottom) / spacing⌉).toNat

/-- Number of iterations of an ascending loop `while x < hi: x += spacing`
starting at `x` (for positive `spacing`). -/
def ascCount (hi spacing x : ℚ) : ℕ :=
  (⌈(hi - x) / spacing⌉).toNat

/-- Source lines 102-105: the `lined` loop, descending from `y`, one
horizontal line per iteration while `y > bottom`.  Fuel-indexed. -/
def linedLoop (left right bottom spacing : ℚ) : ℕ → ℚ → List Cmd
  | 0, _ => []
  | fuel + 1, y =>
    if bottom < y then
      Cmd.line left y right y :: linedLoop left right bottom spacing fuel (y - spacing)
    else []

/-- Source lines 112-115: one row of the `dotted` pattern, ascending in
`x` while `x < right`, one filled gray circle of radius 1 per step. -/
def dotRow (right spacing y : ℚ) : ℕ → ℚ → List Cmd
  | 0, _ => []
  | fuel + 1, x =>
    if x < right then
      Cmd.circle x y 1 true false :: dotRow right spacing y fuel (x + spacing)
    else []

/-- Source lines 110-116: the outer `dotted` loop, ascending in `y`
while `y < top`; each row restarts at `left + spacing/2`. -/
def dottedLoop (left right top spacing : ℚ) (rowFuel : ℕ) : ℕ → ℚ → List Cmd
  | 0, _ => []
  | fuel + 1, y =>
    if y < top then
      dotRow right spacing y rowFuel (left + spacing / 2)
        ++ dottedLoop left right top spacing rowFuel fuel (y + spacing)
    else []

/-- Source lines 124-127: the vertical pass of the `grid` pattern,
ascending in `x` while `x < right`, full-height lines. -/
def gridVLoop (right top bottom spacing : ℚ) : ℕ → ℚ → List Cmd
  | 0, _ => []
  | fuel + 1, x =>
    if x < right then
      Cmd.line x top x bottom :: gridVLoop right top bottom spacing fuel (x + spacing)
    else []

/-- Source lines 99-131: the pattern dispatch of `generate_interior_page`.
Spacings are taken in inches and converted inside each branch, exactly
as in the source; the unsupported-kind branch is the `raise ValueError`. -/
def patternCmds (page_type : String) (rect : ContentRect)
    (line_spacing dot_spacing : ℚ) (grid_spacing : Option ℚ) :
    Except String (List Cmd) :=
  if page_type = "lined" then
    Except.ok
      (Cmd.setLineWidth (1/2) ::
        linedLoop rect.left rect.right rect.bottom (inches_to_points line_spacing)
          (descCount rect.bottom (inches_to_points line_spacing)
            (rect.top - inches_to_points line_spacing))
          (rect.top - inches_to_points line_spacing))
  else if page_type = "dotted" then
    Except.ok
      (Cmd.setFillColorRGB (1/2) (1/2) (1/2) ::
        dottedLoop rect.left rect.right rect.top (inches_to_points dot_spacing)
          (ascCount rect.right (inches_to_points dot_spacing)
            (rect.left + inches_to_points dot_spacing / 2))
          (ascCount rect.top (inches_to_points dot_spacing)
            (rect.bottom + inches_to_points dot_spacing / 2))
          (rect.bottom + inches_to_points dot_spacing / 2))
  else if page_type = "grid" then
    Except.ok
      (Cmd.setLineWidth (1/2) ::
        (linedLoop rect.left rect.right rect.bottom
          (inches_to_points (grid_spacing.getD line_spacing))
          (descCount rect.bottom (inches_to_points (grid_spacing.getD line_spacing))
            (rect.top - inches_to_points (grid_spacing.getD line_spacing)))
          (rect.top - inches_to_points (grid_spacing.getD line_spacing))
        ++ gridVLoop rect.right rect.top rect.bottom
          (inches_to_points (grid_spacing.getD line_spacing))
          (ascCount rect.right (inches_to_points (grid_spacing.getD line_spacing))
            (rect.left + inches_to_points (grid_spacing.getD line_spacing)))
          (rect.left + inches_to_points (grid_spacing.getD line_spacing))))
  else if page_type = "blank" then
    Except.ok []
  else
    Except.error ("Unsupported page type: " ++ page_type)

/-- Source lines 133-148: the watermark overlay (Python truthiness of a
string is non-emptiness).  `setFillAlpha` is modelled as always
supported (the source wraps it in `try/except: pass`). -/
def watermarkCmds (watermark : String) (width_pt height_pt : ℚ)
    (custom_font : Option String) : List Cmd :=
  if watermark = "" then []
  else
    [Cmd.saveState,
     Cmd.setFillAlpha (1/10),
     Cmd.setFont (custom_font.getD ("Helvetica")) 50,
     Cmd.setFillColorRGB (4/5) (4/5) (4/5),
     Cmd.translate (width_pt / 2) (height_pt / 2),
     Cmd.rotate 45,
     Cmd.drawCentredString 0 0 watermark,
     Cmd.restoreState]

/-- Source lines 150-157: the header overlay. -/
def headerCmds (header_text : String) (left height_pt margin_top : ℚ)
    (custom_font : Option String) : List Cmd :=
  if header_text = "" then []
  else
    [Cmd.setFillColorRGB 0 0 0,
     Cmd.setFont (custom_font.getD ("Helvetica")) 12,
     Cmd.drawString left (height_pt - inches_to_points margin_top + 5) header_text]

/-- Source lines 159-166: the footer overlay. -/
def footerCmds (footer_text : String) (left margin_bottom : ℚ)
    (custom_font : Option String) : List Cmd :=
  if footer_text = "" then []
  else
    [Cmd.setFillColorRGB 0 0 0,
     Cmd.setFont (custom_font.getD ("Helvetica")) 12,
     Cmd.drawString left (inches_to_points margin_bottom - 15) footer_text]

/-- Source lines 168-175: the page-number overlay (`if add_page_numbers
and page_number is not None`). -/
def pageNumberCmds (add_page_numbers : Bool) (page_number : Option ℕ)
    (width_pt : ℚ) (custom_font : Option String) : List Cmd :=
  if add_page_numbers = true then
    match page_number with
    | some n =>
        [Cmd.setFillColorRGB 0 0 0,
         Cmd.setFont (custom_font.getD ("Helvetica")) 10,
         Cmd.drawCentredString (width_pt / 2) (inches_to_points (1/4)) (toString n)]
    | none => []
  else []

/-- Source lines 86-177: `generate_interior_page`.  Computes the content
rectangle, draws the pattern (or fails on an unsupported type, exactly
where the source raises `ValueError`, i.e. before any overlay), then the
overlays, then commits the page (`showPage`). -/
def generate_interior_page (page_type : String) (width_pt height_pt : ℚ)
    (margins : Margins) (line_spacing dot_spacing : ℚ)
    (page_number : Option ℕ) (add_page_numbers : Bool)
    (watermark header_text footer_text : String)
    (custom_font : Option String) (grid_spacing : Option ℚ) :
    Except String (List Cmd) :=
  match patternCmds page_type (resolveContentRect width_pt height_pt margins)
      line_spacing dot_spacing grid_spacing with
  | Except.error e => Except.error e
  | Except.ok pat =>
      Except.ok
        (pat
          ++ watermarkCmds watermark width_pt height_pt custom_font
          ++ headerCmds header_text (inches_to_points margins.left) height_pt
              margins.top custom_font
          ++ footerCmds footer_text (inches_to_points margins.left)
              margins.bottom custom_font
          ++ pageNumberCmds add_page_numbers page_number width_pt custom_font
          ++ [Cmd.showPage])

/-- Outcomes of the external resources consulted during generation:
whether the cover image path exists (`os.path.exists`), whether drawing
it succeeds, and whether registering the custom font succeeds.  The
engine never reads anything else from the outside world. -/
structure Env where
  cover_image_exists : Bool
  cover_image_loads : Bool
  font_loads : Bool
deriving DecidableEq

/-- Source lines 37-84: `generate_cover_page`.  Background is the cover
image when present, resolvable and loadable (load failure falls back to
the solid white fill, as in the `except` branch); then title, optional
subtitle, optional author, each stacked below the previous, then the
page is committed. -/
def generate_cover_page (env : Env) (title subtitle author : String)
    (width_pt height_pt : ℚ) (cover_image : String)
    (custom_font : Option String) : List Cmd :=
  (if cover_image ≠ "" ∧ env.cover_image_exists = true then
     if env.cover_image_loads = true then
       [Cmd.drawImage cover_image 0 0 width_pt height_pt]
     else
       [Cmd.setFillColorRGB 1 1 1, Cmd.rect 0 0 width_pt height_pt true]
   else
     [Cmd.setFillColorRGB 1 1 1, Cmd.rect 0 0 width_pt height_pt true])
  ++ [Cmd.setFont (custom_font.getD ("Helvetica-Bold")) 36,
      Cmd.setFillColorRGB 0 0 0,
      Cmd.drawCentredString (width_pt / 2) (height_pt - inches_to_points (3/2)) title]
  ++ (if subtitle ≠ "" then
        [Cmd.setFont (custom_font.getD ("Helvetica")) 24,
         Cmd.drawCentredString (width_pt / 2)
           (height_pt - inches_to_points (3/2) - 46) subtitle]
      else [])
  ++ (if author ≠ "" then
        [Cmd.setFont (custom_font.getD ("Helvetica-Oblique")) 18,
         Cmd.drawCentredString (width_pt / 2)
           ((if subtitle ≠ "" then height_pt - inches_to_points (3/2) - 46
             else height_pt - inches_to_points (3/2)) - 34)
           ("By " ++ author)]
      else [])
  ++ [Cmd.showPage]

/-- Source lines 179-191: `generate_back_cover_page`. -/
def generate_back_cover_page (width_pt height_pt : ℚ)
    (custom_font : Option String) : List Cmd :=
  [Cmd.setFillColorRGB 1 1 1,
   Cmd.rect 0 0 width_pt height_pt true,
   Cmd.setFillColorRGB 0 0 0,
   Cmd.setFont (custom_font.getD ("Helvetica-Bold")) 24,
   Cmd.drawCentredString (width_pt / 2) (height_pt / 2) ("The End"),
   Cmd.showPage]

/-- The `options` dict handed to `generate_pdf` (source lines 577-600).
Field order: title, subtitle, author, pages, width, height, type,
margin_left, margin_right, margin_top, margin_bottom, line_spacing,
dot_spacing, grid_spacing, page_numbers, watermark, header_text,
footer_text, cover_image, font, font_name, output.  The GUI always
supplies a float for `grid_spacing`, but `generate_interior_page`
accepts `None`, hence `Option ℚ` here, passed through unchanged. -/
structure Options where
  title : String
  subtitle : String
  author : String
  pages : ℕ
  width : ℚ
  height : ℚ
  type : String
  margin_left : ℚ
  margin_right : ℚ
  margin_top : ℚ
  margin_bottom : ℚ
  line_spacing : ℚ
  dot_spacing : ℚ
  grid_spacing : Option ℚ
  page_numbers : Bool
  watermark : String
  header_text : String
  footer_text : String
  cover_image : String
  font : String
  font_name : String
  output : String

/-- Python `str.rstrip()` on a character list: drop trailing whitespace.
The ASCII `Char.isWhitespace` agrees with Python on every character the
preceding filter can let through (only the space survives it). -/
def rstripChars (cs : List Char) : List Char :=
  (cs.reverse.dropWhile Char.isWhitespace).reverse

/-- Source lines 210-211: the output name derived from the title when no
explicit output is given — keep alphanumerics, spaces and underscores
(`str.isalnum`, modelled for ASCII), `rstrip`, replace each space by an
underscore, append `.pdf`. -/
def derived_output_filename (title : String) : String :=
  String.mk
    ((rstripChars
        (title.data.filter (fun c => c.isAlphanum || c = ' ' || c = '_'))).map
      (fun c => if c = ' ' then '_' else c))
  ++ ".pdf"

/-- Source lines 207-211: the resolved output filename. -/
def resolvedOutputName (o : Options) : String :=
  if o.output ≠ "" then o.output else derived_output_filename o.title

/-- Python `os.path.basename` for forward-slash paths. -/
def pathBasename (p : String) : String :=
  String.mk ((p.data.reverse.takeWhile (fun c => c ≠ '/')).reverse)

/-- Python `os.path.splitext(...)[0]` for ordinary filenames: drop the
last dot and what follows, unless the name has no dot or only leading
dots. -/
def splitextRoot (s : String) : String :=
  if (s.data.reverse.takeWhile (fun c => c ≠ '.')).length = s.data.length then s
  else if (s.data.reverse.drop
      ((s.data.reverse.takeWhile (fun c => c ≠ '.')).length + 1)).all
      (fun c => c = '.') then s
  else String.mk
    ((s.data.reverse.drop
        ((s.data.reverse.takeWhile (fun c => c ≠ '.')).length + 1)).reverse)

/-- Source lines 216-224: the custom font binding.  `None` when no path
is given or registration fails (the warning branch); otherwise the
explicit font name, defaulted to the path's base name without its
extension. -/
def resolveCustomFont (env : Env) (o : Options) : Option String :=
  if o.font = "" then none
  else if env.font_loads = true then
    some (if o.font_name = "" then splitextRoot (pathBasename o.font) else o.font_name)
  else none

/-- Source lines 229-239: the interior-page loop of `generate_pdf`,
over the 1-based page indices.  A raised `ValueError` aborts the loop
(commands already issued stay on the canvas); the error is remembered
so that the caller's `except` branch can drop the save. -/
def interiorPagesLoop (o : Options) (width_pt height_pt : ℚ) (margins : Margins)
    (custom_font : Option String) : List ℕ → List Cmd × Option String
  | [] => ([], none)
  | i :: rest =>
    match generate_interior_page o.type width_pt height_pt margins
        o.line_spacing o.dot_spacing
        (if o.page_numbers = true then some i else none) o.page_numbers
        o.watermark o.header_text o.footer_text custom_font o.grid_spacing with
    | Except.error e => ([], some e)
    | Except.ok cs =>
        ((cs ++ (interiorPagesLoop o width_pt height_pt margins custom_font rest).1),
         (interiorPagesLoop o width_pt height_pt margins custom_font rest).2)

/-- The 1-based interior page indices `range(1, pages + 1)`. -/
def pageIndexList (pages : ℕ) : List ℕ :=
  (List.range pages).map (fun i => i + 1)

/-- Source lines 193-245: `generate_pdf`.  Returns the output filename
(`None` when an exception was caught) together with the full ordered
trace of surface operations: canvas creation, cover page, interior
pages, and — only when no exception occurred — back cover and save.
(ReportLab accumulates pages in memory; an exception before `save`
means no finalized artifact.) -/
def generate_pdf (env : Env) (o : Options) : Option String × List Cmd :=
  match (interiorPagesLoop o (inches_to_points o.width) (inches_to_points o.height)
      ⟨o.margin_left, o.margin_right, o.margin_top, o.margin_bottom⟩
      (resolveCustomFont env o) (pageIndexList o.pages)) with
  | (intCmds, some _) =>
      (none,
       Cmd.openCanvas (resolvedOutputName o) ::
         (generate_cover_page env o.title o.subtitle o.author
            (inches_to_points o.width) (inches_to_points o.height)
            o.cover_image (resolveCustomFont env o)
          ++ intCmds))
  | (intCmds, none) =>
      (some (resolvedOutputName o),
       Cmd.openCanvas (resolvedOutputName o) ::
         (generate_cover_page env o.title o.subtitle o.author
            (inches_to_points o.width) (inches_to_points o.height)
            o.cover_image (resolveCustomFont env o)
          ++ intCmds
          ++ generate_back_cover_page (inches_to_points o.width)
              (inches_to_points o.height) (resolveCustomFont env o)
          ++ [Cmd.saveCanvas]))

/-- Source lines 605-613: the field checks `on_generate` performs before
calling `generate_pdf` (title required, pages positive, dimensions
positive). -/
def on_generate_valid (o : Options) : Prop :=
  o.title ≠ "" ∧ 0 < o.pages ∧ 0 < o.width ∧ 0 < o.height

instance (o : Options) : Decidable (on_generate_valid o) := by
  unfold on_generate_valid
  infer_instance

/-- The four supported interior pattern kinds (source line 404 and the
dispatch of lines 99-129). -/
def validKind (t : String) : Prop :=
  t = "lined" ∨ t = "dotted" ∨ t = "grid" ∨ t = "blank"

instance (t : String) : Decidable (validKind t) := by
  unfold validKind
  infer_instance

/-! ## Command classification and counting -/

/-- Is this a line-draw command? -/
def isLineCmd : Cmd → Bool
  | Cmd.line _ _ _ _ => true
  | _ => false

/-- The line-draw commands of a trace. -/
def lineCmds (cs : List Cmd) : List Cmd :=
  cs.filter isLineCmd

/-- How many line-draw commands a trace contains. -/
def countLineCmds (cs : List Cmd) : ℕ :=
  (lineCmds cs).length

/-- Is this a page commit? -/
def isShowPage : Cmd → Bool
  | Cmd.showPage => true
  | _ => false

/-- How many committed pages a trace contains. -/
def pageCount (cs : List Cmd) : ℕ :=
  (cs.filter isShowPage).length

/-- Is this a rotation of the coordinate system? -/
def isRotate : Cmd → Bool
  | Cmd.rotate _ => true
  | _ => false

/-- How many rotations a trace contains (in this engine they occur only
in the watermark block). -/
def rotateCount (cs : List Cmd) : ℕ :=
  (cs.filter isRotate).length

/-- Is this an opacity change? -/
def isSetFillAlpha : Cmd → Bool
  | Cmd.setFillAlpha _ => true
  | _ => false

/-- How many opacity changes a trace contains. -/
def alphaCount (cs : List Cmd) : ℕ :=
  (cs.filter isSetFillAlpha).length

/-- The commands a pattern loop may emit: stroke/fill configuration,
lines and circles — never text, transforms, or page commits. -/
def patternPrim : Cmd → Prop
  | Cmd.setLineWidth _ => True
  | Cmd.line _ _ _ _ => True
  | Cmd.circle _ _ _ _ _ => True
  | Cmd.setFillColorRGB _ _ _ => True
  | _ => False

/-! ## Iteration counts of the loops -/

theorem descCount_of_le (bottom spacing y : ℚ) (hs : 0 < spacing)
    (h : y ≤ bottom) : descCount bottom spacing y = 0 := by
  unfold descCount
  have h1 : (y - bottom) / spacing ≤ 0 := by
    rw [div_le_iff₀ hs]
    linarith
  have h2 : ⌈(y - bottom) / spacing⌉ ≤ 0 := by
    simpa using (Int.ceil_le (α := ℚ)).2 (by simpa using h1)
  omega

theorem descCount_of_lt (bottom spacing y : ℚ) (hs : 0 < spacing)
    (h : bottom < y) :
    descCount bottom spacing y = descCount bottom spacing (y - spacing) + 1 := by
  unfold descCount
  have hstep : (y - spacing - bottom) / spacing = (y - bottom) / spacing - 1 := by
    field_simp
    ring
  have hceil : ⌈(y - spacing - bottom) / spacing⌉ = ⌈(y - bottom) / spacing⌉ - 1 := by
    rw [hstep, Int.ceil_sub_one]
  have hpos : 0 < ⌈(y - bottom) / spacing⌉ :=
    Int.ceil_pos.2 (div_pos (by linarith) hs)
  omega

theorem ascCount_of_le (hi spacing x : ℚ) (hs : 0 < spacing)
    (h : hi ≤ x) : ascCount hi spacing x = 0 := by
  unfold ascCount
  have h1 : (hi - x) / spacing ≤ 0 := by
    rw [div_le_iff₀ hs]
    linarith
  have h2 : ⌈(hi - x) / spacing⌉ ≤ 0 := by
    simpa using (Int.ceil_le (α := ℚ)).2 (by simpa using h1)
  omega

theorem ascCount_of_lt (hi spacing x : ℚ) (hs : 0 < spacing)
    (h : x < hi) :
    ascCount hi spacing x = ascCount hi spacing (x + spacing) + 1 := by
  unfold ascCount
  have hstep : (hi - (x + spacing)) / spacing = (hi - x) / spacing - 1 := by
    field_simp
    ring
  have hceil : ⌈(hi - (x + spacing)) / spacing⌉ = ⌈(hi - x) / spacing⌉ - 1 := by
    rw [hstep, Int.ceil_sub_one]
  have hpos : 0 < ⌈(hi - x) / spacing⌉ :=
    Int.ceil_pos.2 (div_pos (by linarith) hs)
  omega

/-! ## Loop characterizations: with enough fuel, each loop equals an
explicit `List.range` image, so the result is independent of the fuel. -/

theorem linedLoop_eq (left right bottom spacing : ℚ) (hs : 0 < spacing) :
    ∀ fuel y, descCount bottom spacing y ≤ fuel →
      linedLoop left right bottom spacing fuel y =
        (List.range (descCount bottom spacing y)).map
          (fun k : ℕ => Cmd.line left (y - (k : ℚ) * spacing) right (y - (k : ℚ) * spacing)) := by
  intro fuel
  induction fuel with
  | zero =>
    intro y h
    have h0 : descCount bottom spacing y = 0 := Nat.le_zero.1 h
    simp [linedLoop, h0]
  | succ n ih =>
    intro y h
    by_cases hy : bottom < y
    · rw [descCount_of_lt bottom spacing y hs hy] at h ⊢
      simp only [linedLoop, if_pos hy]
      rw [ih (y - spacing) (by omega), List.range_succ_eq_map, List.map_cons]
      congr 1
      · simp
      · rw [List.map_map]
        apply List.map_congr_left
        intro a _
        simp only [Function.comp_apply, Cmd.line.injEq]
        push_cast
        refine ⟨trivial, by ring, trivial, by ring⟩
    · have h0 : descCount bottom spacing y = 0 :=
        descCount_of_le bottom spacing y hs (le_of_not_lt hy)
      simp [linedLoop, hy, h0]

theorem gridVLoop_eq (right top bottom spacing : ℚ) (hs : 0 < spacing) :
    ∀ fuel x, ascCount right spacing x ≤ fuel →
      gridVLoop right top bottom spacing fuel x =
        (List.range (ascCount right spacing x)).map
          (fun k : ℕ => Cmd.line (x + (k : ℚ) * spacing) top (x + (k : ℚ) * spacing) bottom) := by
  intro fuel
  induction fuel with
  | zero =>
    intro x h
    have h0 : ascCount right spacing x = 0 := Nat.le_zero.1 h
    simp [gridVLoop, h0]
  | succ n ih =>
    intro x h
    by_cases hx : x < right
    · rw [ascCount_of_lt right spacing x hs hx] at h ⊢
      simp only [gridVLoop, if_pos hx]
      rw [ih (x + spacing) (by omega), List.range_succ_eq_map, List.map_cons]
      congr 1
      · simp
      · rw [List.map_map]
        apply List.map_congr_left
        intro a _
        simp only [Function.comp_apply, Cmd.line.injEq]
        push_cast
        refine ⟨by ring, trivial, by ring, trivial⟩
    · have h0 : ascCount right spacing x = 0 :=
        ascCount_of_le right spacing x hs (le_of_not_lt hx)
      simp [gridVLoop, hx, h0]

theorem dotRow_eq (right spacing y : ℚ) (hs : 0 < spacing) :
    ∀ fuel x, ascCount right spacing x ≤ fuel →
      dotRow right spacing y fuel x =
        (List.range (ascCount right spacing x)).map
          (fun k : ℕ => Cmd.circle (x + (k : ℚ) * spacing) y 1 true false) := by
  intro fuel
  induction fuel with
  | zero =>
    intro x h
    have h0 : ascCount right spacing x = 0 := Nat.le_zero.1 h
    simp [dotRow, h0]
  | succ n ih =>
    intro x h
    by_cases hx : x < right
    · rw [ascCount_of_lt right spacing x hs hx] at h ⊢
      simp only [dotRow, if_pos hx]
      rw [ih (x + spacing) (by omega), List.range_succ_eq_map, List.map_cons]
      congr 1
      · simp
      · rw [List.map_map]
        apply List.map_congr_left
        intro a _
        simp only [Function.comp_apply, Cmd.circle.injEq]
        push_cast
        refine ⟨by ring, trivial, trivial, trivial, trivial⟩
    · have h0 : ascCount right spacing x = 0 :=
        ascCount_of_le right spacing x hs (le_of_not_lt hx)
      simp [dotRow, hx, h0]

theorem dottedLoop_eq (left right top spacing : ℚ) (rowFuel : ℕ) (hs : 0 < spacing) :
    ∀ fuel y, ascCount top spacing y ≤ fuel →
      dottedLoop left right top spacing rowFuel fuel y =
        ((List.range (ascCount top spacing y)).map
          (fun j : ℕ => dotRow right spacing (y + (j : ℚ) * spacing) rowFuel
            (left + spacing / 2))).flatten := by
  intro fuel
  induction fuel with
  | zero =>
    intro y h
    have h0 : ascCount top spacing y = 0 := Nat.le_zero.1 h
    simp [dottedLoop, h0]
  | succ n ih =>
    intro y h
    by_cases hy : y < top
    · rw [ascCount_of_lt top spacing y hs hy] at h ⊢
      simp only [dottedLoop, if_pos hy]
      rw [ih (y + spacing) (by omega), List.range_succ_eq_map, List.map_cons,
        List.flatten_cons]
      congr 1
      · simp
      · rw [List.map_map]
        congr 1
        apply List.map_congr_left
        intro a _
        simp only [Function.comp_apply]
        push_cast
        ring_nf
    · have h0 : ascCount top spacing y = 0 :=
        ascCount_of_le top spacing y hs (le_of_not_lt hy)
      simp [dottedLoop, hy, h0]

/-! ## Loop stabilization: any fuel at least the canonical iteration
count gives the canonical result, i.e. the while-loops terminate. -/

theorem linedLoop_stable (left right bottom spacing : ℚ) (hs : 0 < spacing)
    (y : ℚ) (fuel : ℕ) (h : descCount bottom spacing y ≤ fuel) :
    linedLoop left right bottom spacing fuel y =
      linedLoop left right bottom spacing (descCount bottom spacing y) y := by
  rw [linedLoop_eq left right bottom spacing hs fuel y h,
    linedLoop_eq left right bottom spacing hs (descCount bottom spacing y) y le_rfl]

theorem gridVLoop_stable (right top bottom spacing : ℚ) (hs : 0 < spacing)
    (x : ℚ) (fuel : ℕ) (h : ascCount right spacing x ≤ fuel) :
    gridVLoop right top bottom spacing fuel x =
      gridVLoop right top bottom spacing (ascCount right spacing x) x := by
  rw [gridVLoop_eq right top bottom spacing hs fuel x h,
    gridVLoop_eq right top bottom spacing hs (ascCount right spacing x) x le_rfl]

theorem dotRow_stable (right spacing y : ℚ) (hs : 0 < spacing)
    (x : ℚ) (fuel : ℕ) (h : ascCount right spacing x ≤ fuel) :
    dotRow right spacing y fuel x =
      dotRow right spacing y (ascCount right spacing x) x := by
  rw [dotRow_eq right spacing y hs fuel x h,
    dotRow_eq right spacing y hs (ascCount right spacing x) x le_rfl]

theorem dottedLoop_stable (left right top spacing : ℚ) (rowFuel : ℕ)
    (hs : 0 < spacing) (y : ℚ) (fuel : ℕ) (h : ascCount top spacing y ≤ fuel) :
    dottedLoop left right top spacing rowFuel fuel y =
      dottedLoop left right top spacing rowFuel (ascCount top spacing y) y := by
  rw [dottedLoop_eq left right top spacing rowFuel hs fuel y h,
    dottedLoop_eq left right top spacing rowFuel hs (ascCount top spacing y) y le_rfl]

/-! ## Everything a pattern loop emits is a pattern primitive. -/

theorem prim_of_mem_linedLoop (left right bottom spacing : ℚ) :
    ∀ fuel y c, c ∈ linedLoop left right bottom spacing fuel y → patternPrim c := by
  intro fuel
  induction fuel with
  | zero => intro y c hc; simp [linedLoop] at hc
  | succ n ih =>
    intro y c hc
    by_cases hy : bottom < y
    · simp only [linedLoop, if_pos hy, List.mem_cons] at hc
      rcases hc with rfl | hc
      · trivial
      · exact ih (y - spacing) c hc
    · simp [linedLoop, if_neg hy] at hc

theorem prim_of_mem_gridVLoop (right top bottom spacing : ℚ) :
    ∀ fuel x c, c ∈ gridVLoop right top bottom spacing fuel x → patternPrim c := by
  intro fuel
  induction fuel with
  | zero => intro x c hc; simp [gridVLoop] at hc
  | succ n ih =>
    intro x c hc
    by_cases hx : x < right
    · simp only [gridVLoop, if_pos hx, List.mem_cons] at hc
      rcases hc with rfl | hc
      · trivial
      · exact ih (x + spacing) c hc
    · simp [gridVLoop, if_neg hx] at hc

theorem prim_of_mem_dotRow (right spacing y : ℚ) :
    ∀ fuel x c, c ∈ dotRow right spacing y fuel x → patternPrim c := by
  intro fuel
  induction fuel with
  | zero => intro x c hc; simp [dotRow] at hc
  | succ n ih =>
    intro x c hc
    by_cases hx : x < right
    · simp only [dotRow, if_pos hx, List.mem_cons] at hc
      rcases hc with rfl | hc
      · trivial
      · exact ih (x + spacing) c hc
    · simp [dotRow, if_neg hx] at hc

theorem prim_of_mem_dottedLoop (left right top spacing : ℚ) (rowFuel : ℕ) :
    ∀ fuel y c, c ∈ dottedLoop left right top spacing rowFuel fuel y → patternPrim c := by
  intro fuel
  induction fuel with
  | zero => intro y c hc; simp [dottedLoop] at hc
  | succ n ih =>
    intro y c hc
    by_cases hy : y < top
    · simp only [dottedLoop, if_pos hy, List.mem_append] at hc
      rcases hc with hc | hc
      · exact prim_of_mem_dotRow right spacing y rowFuel (left + spacing / 2) c hc
      · exact ih (y + spacing) c hc
    · simp [dottedLoop, if_neg hy] at hc

/-! ## Pattern primitives are neither page commits, rotations, opacity
changes, nor text. -/

theorem isShowPage_false_of_prim (c : Cmd) (h : patternPrim c) :
    isShowPage c = false := by
  cases c <;> first | rfl | exact h.elim

theorem isRotate_false_of_prim (c : Cmd) (h : patternPrim c) :
    isRotate c = false := by
  cases c <;> first | rfl | exact h.elim

theorem isSetFillAlpha_false_of_prim (c : Cmd) (h : patternPrim c) :
    isSetFillAlpha c = false := by
  cases c <;> first | rfl | exact h.elim

theorem pageCount_eq_zero_of_prim (cs : List Cmd) (h : ∀ c ∈ cs, patternPrim c) :
    pageCount cs = 0 := by
  unfold pageCount
  rw [List.filter_eq_nil_iff.mpr]
  · rfl
  · intro c hc
    rw [isShowPage_false_of_prim c (h c hc)]
    simp

theorem rotateCount_eq_zero_of_prim (cs : List Cmd) (h : ∀ c ∈ cs, patternPrim c) :
    rotateCount cs = 0 := by
  unfold rotateCount
  rw [List.filter_eq_nil_iff.mpr]
  · rfl
  · intro c hc
    rw [isRotate_false_of_prim c (h c hc)]
    simp

theorem alphaCount_eq_zero_of_prim (cs : List Cmd) (h : ∀ c ∈ cs, patternPrim c) :
    alphaCount cs = 0 := by
  unfold alphaCount
  rw [List.filter_eq_nil_iff.mpr]
  · rfl
  · intro c hc
    rw [isSetFillAlpha_false_of_prim c (h c hc)]
    simp

/-! ## Counting over the overlay blocks. -/

theorem watermark_counts (w : String) (W H : ℚ) (f : Option String) :
    lineCmds (watermarkCmds w W H f) = [] ∧
    pageCount (watermarkCmds w W H f) = 0 ∧
    rotateCount (watermarkCmds w W H f) = (if w = "" then 0 else 1) ∧
    alphaCount (watermarkCmds w W H f) = (if w = "" then 0 else 1) := by
  by_cases hw : w = ""
  · unfold watermarkCmds
    simp only [if_pos hw]
    exact ⟨rfl, rfl, rfl, rfl⟩
  · unfold watermarkCmds
    simp only [if_neg hw]
    exact ⟨rfl, rfl, rfl, rfl⟩

theorem header_counts (t : String) (l H mt : ℚ) (f : Option String) :
    lineCmds (headerCmds t l H mt f) = [] ∧
    pageCount (headerCmds t l H mt f) = 0 ∧
    rotateCount (headerCmds t l H mt f) = 0 ∧
    alphaCount (headerCmds t l H mt f) = 0 := by
  by_cases ht : t = ""
  · unfold headerCmds
    simp only [if_pos ht]
    exact ⟨rfl, rfl, rfl, rfl⟩
  · unfold headerCmds
    simp only [if_neg ht]
    exact ⟨rfl, rfl, rfl, rfl⟩

theorem footer_counts (t : String) (l mb : ℚ) (f : Option String) :
    lineCmds (footerCmds t l mb f) = [] ∧
    pageCount (footerCmds t l mb f) = 0 ∧
    rotateCount (footerCmds t l mb f) = 0 ∧
    alphaCount (footerCmds t l mb f) = 0 := by
  by_cases ht : t = ""
  · unfold footerCmds
    simp only [if_pos ht]
    exact ⟨rfl, rfl, rfl, rfl⟩
  · unfold footerCmds
    simp only [if_neg ht]
    exact ⟨rfl, rfl, rfl, rfl⟩

theorem pageNumber_counts (ap : Bool) (pn : Option ℕ) (W : ℚ) (f : Option String) :
    lineCmds (pageNumberCmds ap pn W f) = [] ∧
    pageCount (pageNumberCmds ap pn W f) = 0 ∧
    rotateCount (pageNumberCmds ap pn W f) = 0 ∧
    alphaCount (pageNumberCmds ap pn W f) = 0 := by
  cases ap <;> cases pn <;> exact ⟨rfl, rfl, rfl, rfl⟩

/-! ## Counting over cover and back cover. -/

theorem cover_pageCount (env : Env) (t st a : String) (W H : ℚ)
    (ci : String) (f : Option String) :
    pageCount (generate_cover_page env t st a W H ci f) = 1 := by
  unfold generate_cover_page pageCount
  split_ifs <;> rfl

theorem back_cover_pageCount (W H : ℚ) (f : Option String) :
    pageCount (generate_back_cover_page W H f) = 1 := rfl

theorem pageCount_append (a b : List Cmd) :
    pageCount (a ++ b) = pageCount a + pageCount b := by
  unfold pageCount
  rw [List.filter_append, List.length_append]

theorem pageCount_flatten (L : List (List Cmd)) :
    pageCount L.flatten = (L.map pageCount).sum := by
  induction L with
  | nil => rfl
  | cons x xs ih => rw [List.flatten_cons, pageCount_append, ih, List.map_cons, List.sum_cons]

/-! ## Shape of a successfully generated interior page. -/

theorem generate_interior_page_shape (t : String) (W H : ℚ) (m : Margins)
    (ls ds : ℚ) (pn : Option ℕ) (ap : Bool) (wm ht ft : String)
    (cf : Option String) (gs : Option ℚ) (hv : validKind t) :
    ∃ pat, (∀ c ∈ pat, patternPrim c) ∧
      generate_interior_page t W H m ls ds pn ap wm ht ft cf gs =
        Except.ok
          (pat
            ++ watermarkCmds wm W H cf
            ++ headerCmds ht (inches_to_points m.left) H m.top cf
            ++ footerCmds ft (inches_to_points m.left) m.bottom cf
            ++ pageNumberCmds ap pn W cf
            ++ [Cmd.showPage]) := by
  rcases hv with hv | hv | hv | hv <;> subst hv
  · refine ⟨Cmd.setLineWidth (1/2) ::
      linedLoop (resolveContentRect W H m).left (resolveContentRect W H m).right
        (resolveContentRect W H m).bottom (inches_to_points ls)
        (descCount (resolveContentRect W H m).bottom (inches_to_points ls)
          ((resolveContentRect W H m).top - inches_to_points ls))
        ((resolveContentRect W H m).top - inches_to_points ls), ?_, rfl⟩
    intro c hc
    rcases List.mem_cons.1 hc with rfl | hc
    · trivial
    · exact prim_of_mem_linedLoop _ _ _ _ _ _ c hc
  · refine ⟨Cmd.setFillColorRGB (1/2) (1/2) (1/2) ::
      dottedLoop (resolveContentRect W H m).left (resolveContentRect W H m).right
        (resolveContentRect W H m).top (inches_to_points ds)
        (ascCount (resolveContentRect W H m).right (inches_to_points ds)
          ((resolveContentRect W H m).left + inches_to_points ds / 2))
        (ascCount (resolveContentRect W H m).top (inches_to_points ds)
          ((resolveContentRect W H m).bottom + inches_to_points ds / 2))
        ((resolveContentRect W H m).bottom + inches_to_points ds / 2), ?_, rfl⟩
    intro c hc
    rcases List.mem_cons.1 hc with rfl | hc
    · trivial
    · exact prim_of_mem_dottedLoop _ _ _ _ _ _ _ c hc
  · refine ⟨Cmd.setLineWidth (1/2) ::
      (linedLoop (resolveContentRect W H m).left (resolveContentRect W H m).right
        (resolveContentRect W H m).bottom (inches_to_points (gs.getD ls))
        (descCount (resolveContentRect W H m).bottom (inches_to_points (gs.getD ls))
          ((resolveContentRect W H m).top - inches_to_points (gs.getD ls)))
        ((resolveContentRect W H m).top - inches_to_points (gs.getD ls))
      ++ gridVLoop (resolveContentRect W H m).right (resolveContentRect W H m).top
        (resolveContentRect W H m).bottom (inches_to_points (gs.getD ls))
        (ascCount (resolveContentRect W H m).right (inches_to_points (gs.getD ls))
          ((resolveContentRect W H m).left + inches_to_points (gs.getD ls)))
        ((resolveContentRect W H m).left + inches_to_points (gs.getD ls))), ?_, rfl⟩
    intro c hc
    rcases List.mem_cons.1 hc with rfl | hc
    · trivial
    · rcases List.mem_append.1 hc with hc | hc
      · exact prim_of_mem_linedLoop _ _ _ _ _ _ c hc
      · exact prim_of_mem_gridVLoop _ _ _ _ _ _ c hc
  · exact ⟨[], by intro c hc; simp at hc, rfl⟩

/-- A successfully generated interior page commits exactly one page. -/
theorem generate_interior_page_pageCount (t : String) (W H : ℚ) (m : Margins)
    (ls ds : ℚ) (pn : Option ℕ) (ap : Bool) (wm ht ft : String)
    (cf : Option String) (gs : Option ℚ) (hv : validKind t) (cs : List Cmd)
    (hcs : generate_interior_page t W H m ls ds pn ap wm ht ft cf gs = Except.ok cs) :
    pageCount cs = 1 := by
  obtain ⟨pat, hprim, heq⟩ :=
    generate_interior_page_shape t W H m ls ds pn ap wm ht ft cf gs hv
  rw [heq] at hcs
  injection hcs with hcs
  subst hcs
  rw [pageCount_append, pageCount_append, pageCount_append, pageCount_append,
    pageCount_append, pageCount_eq_zero_of_prim pat hprim,
    (watermark_counts wm W H cf).2.1,
    (header_counts ht (inches_to_points m.left) H m.top cf).2.1,
    (footer_counts ft (inches_to_points m.left) m.bottom cf).2.1,
    (pageNumber_counts ap pn W cf).2.1]
  rfl

/-! ## The interior-page loop of the assembler, when the kind is valid. -/

/-- The command list of a successful `Except` (`[]` on error; used only
where success is proved). -/
def okCmds (e : Except String (List Cmd)) : List Cmd :=
  match e with
  | Except.ok cs => cs
  | Except.error _ => []

theorem interiorPagesLoop_ok (o : Options) (W H : ℚ) (M : Margins)
    (cf : Option String) (hv : validKind o.type) :
    ∀ idxs, interiorPagesLoop o W H M cf idxs =
      ((idxs.map (fun i =>
        okCmds (generate_interior_page o.type W H M o.line_spacing o.dot_spacing
          (if o.page_numbers = true then some i else none) o.page_numbers
          o.watermark o.header_text o.footer_text cf o.grid_spacing))).flatten,
       none) := by
  intro idxs
  induction idxs with
  | nil => rfl
  | cons i rest ih =>
    obtain ⟨pat, _, heq⟩ :=
      generate_interior_page_shape o.type W H M o.line_spacing o.dot_spacing
        (if o.page_numbers = true then some i else none) o.page_numbers
        o.watermark o.header_text o.footer_text cf o.grid_spacing hv
    simp only [interiorPagesLoop, heq, ih, okCmds, List.map_cons, List.flatten_cons]

theorem lineCmds_append (a b : List Cmd) :
    lineCmds (a ++ b) = lineCmds a ++ lineCmds b := by
  unfold lineCmds
  rw [List.filter_append]

/-- Did the `Except` succeed? -/
def isOkE (e : Except String (List Cmd)) : Bool :=
  match e with
  | Except.ok _ => true
  | Except.error _ => false

/-- The cover page never saves the canvas. -/
theorem saveCanvas_not_in_cover (env : Env) (t st a : String) (W H : ℚ)
    (ci : String) (f : Option String) :
    Cmd.saveCanvas ∉ generate_cover_page env t st a W H ci f := by
  unfold generate_cover_page
  split_ifs <;> simp

/-! ## The lined page, in closed form. -/

/-- A `lined` interior page always succeeds, and its line-draw commands
are exactly the horizontal lines at `top - (k+1)*S`, `k` ranging over
`(⌈(top-bottom)/S⌉ - 1).toNat`, each spanning the content width. -/
theorem lined_page_lineCmds (W H : ℚ) (m : Margins) (ls ds : ℚ)
    (pn : Option ℕ) (ap : Bool) (wm ht ft : String) (cf : Option String)
    (gs : Option ℚ) (hs : 0 < ls) :
    ∃ cs, generate_interior_page ("lined") W H m ls ds pn ap wm ht ft cf gs =
        Except.ok cs ∧
      lineCmds cs =
        (List.range ((⌈((H - inches_to_points m.top) - inches_to_points m.bottom) /
            inches_to_points ls⌉ - 1).toNat)).map
          (fun k : ℕ =>
            Cmd.line (inches_to_points m.left)
              ((H - inches_to_points m.top) - ((k : ℚ) + 1) * inches_to_points ls)
              (W - inches_to_points m.right)
              ((H - inches_to_points m.top) - ((k : ℚ) + 1) * inches_to_points ls)) ∧
      countLineCmds cs =
        (⌈((H - inches_to_points m.top) - inches_to_points m.bottom) /
            inches_to_points ls⌉ - 1).toNat := by
  have hS : 0 < inches_to_points ls := by
    unfold inches_to_points
    positivity
  have heq : generate_interior_page ("lined") W H m ls ds pn ap wm ht ft cf gs =
      Except.ok
        (Cmd.setLineWidth (1/2) ::
          linedLoop (inches_to_points m.left) (W - inches_to_points m.right)
            (inches_to_points m.bottom) (inches_to_points ls)
            (descCount (inches_to_points m.bottom) (inches_to_points ls)
              ((H - inches_to_points m.top) - inches_to_points ls))
            ((H - inches_to_points m.top) - inches_to_points ls)
          ++ watermarkCmds wm W H cf
          ++ headerCmds ht (inches_to_points m.left) H m.top cf
          ++ footerCmds ft (inches_to_points m.left) m.bottom cf
          ++ pageNumberCmds ap pn W cf
          ++ [Cmd.showPage]) := rfl
  have hn : descCount (inches_to_points m.bottom) (inches_to_points ls)
      ((H - inches_to_points m.top) - inches_to_points ls) =
      (⌈((H - inches_to_points m.top) - inches_to_points m.bottom) /
        inches_to_points ls⌉ - 1).toNat := by
    unfold descCount
    have hdiv : ((H - inches_to_points m.top) - inches_to_points ls -
        inches_to_points m.bottom) / inches_to_points ls =
        ((H - inches_to_points m.top) - inches_to_points m.bottom) /
          inches_to_points ls - 1 := by
      field_simp
      ring
    rw [hdiv, Int.ceil_sub_one]
  have hloop : lineCmds (Cmd.setLineWidth (1/2) ::
      linedLoop (inches_to_points m.left) (W - inches_to_points m.right)
        (inches_to_points m.bottom) (inches_to_points ls)
        (descCount (inches_to_points m.bottom) (inches_to_points ls)
          ((H - inches_to_points m.top) - inches_to_points ls))
        ((H - inches_to_points m.top) - inches_to_points ls)) =
      (List.range ((⌈((H - inches_to_points m.top) - inches_to_points m.bottom) /
          inches_to_points ls⌉ - 1).toNat)).map
        (fun k : ℕ =>
          Cmd.line (inches_to_points m.left)
            ((H - inches_to_points m.top) - ((k : ℚ) + 1) * inches_to_points ls)
            (W - inches_to_points m.right)
            ((H - inches_to_points m.top) - ((k : ℚ) + 1) * inches_to_points ls)) := by
    rw [linedLoop_eq _ _ _ _ hS _ _ le_rfl]
    unfold lineCmds
    rw [List.filter_cons_of_neg (by decide)]
    rw [List.filter_eq_self.mpr (by
      intro a ha
      rcases List.mem_map.1 ha with ⟨k, _, rfl⟩
      rfl)]
    rw [hn]
    apply List.map_congr_left
    intro a _
    simp only [Cmd.line.injEq]
    refine ⟨trivial, by ring, trivial, by ring⟩
  refine ⟨_, heq, ?_, ?_⟩
  · rw [lineCmds_append, lineCmds_append, lineCmds_append, lineCmds_append,
      lineCmds_append, hloop,
      (watermark_counts wm W H cf).1,
      (header_counts ht (inches_to_points m.left) H m.top cf).1,
      (footer_counts ft (inches_to_points m.left) m.bottom cf).1,
      (pageNumber_counts ap pn W cf).1]
    have hone : lineCmds [Cmd.showPage] = [] := rfl
    rw [hone]
    simp only [List.append_nil]
  · unfold countLineCmds
    rw [lineCmds_append, lineCmds_append, lineCmds_append, lineCmds_append,
      lineCmds_append, hloop,
      (watermark_counts wm W H cf).1,
      (header_counts ht (inches_to_points m.left) H m.top cf).1,
      (footer_counts ft (inches_to_points m.left) m.bottom cf).1,
      (pageNumber_counts ap pn W cf).1]
    have hone : lineCmds [Cmd.showPage] = [] := rfl
    rw [hone]
    simp [List.length_map, List.length_range]

/-! ## Claims -/

/-- Claim C1, counterexample.  On the spec's own example (page 6in by
9in, margins 0.5in everywhere, so content height H is 8in = 576pt and
spacing S is 0.25in = 18pt), a `lined` interior page draws 31 horizontal
lines, not `floor(H/S) = 32`: the loop runs strictly above `bottom`, so
the candidate `y = top - 32*S = bottom` is excluded when S divides H. -/
theorem C1_counterexample :
    countLineCmds (okCmds
      (generate_interior_page ("lined") 432 648 ⟨1/2, 1/2, 1/2, 1/2⟩ (1/4) (1/2)
        none false ("") ("") ("") none none)) = 31 ∧
    ⌊((648 - inches_to_points (1/2)) - inches_to_points (1/2)) /
        inches_to_points (1/4)⌋ = 32 ∧
    (31 : ℕ) ≠ 32 := by
  refine ⟨?_, ?_, by decide⟩
  · obtain ⟨cs, hok, _, hcount⟩ :=
      lined_page_lineCmds 432 648 ⟨1/2, 1/2, 1/2, 1/2⟩ (1/4) (1/2)
        none false ("") ("") ("") none none (by norm_num)
    rw [hok]
    unfold okCmds
    rw [hcount]
    norm_num [inches_to_points]
    all_goals decide
  · norm_num [inches_to_points]

/-- Claim C1, amended.  For every positive line spacing, a `lined`
interior page succeeds and draws exactly `(⌈H/S⌉ - 1).toNat` horizontal
lines (`H = top - bottom`, `S` the spacing, both in points) — that is
`⌊H/S⌋` lines when `S` does not divide `H`, but `H/S - 1` lines when it
does (spec example: 31, not 32) — each at `y = top - k*S` for
`k = 1, 2, …` and each spanning the full content width from `left` to
`right`. -/
theorem C1_lined_line_count (W H : ℚ) (m : Margins) (ls ds : ℚ)
    (pn : Option ℕ) (ap : Bool) (wm ht ft : String) (cf : Option String)
    (gs : Option ℚ) (hs : 0 < ls) :
    ∃ cs, generate_interior_page ("lined") W H m ls ds pn ap wm ht ft cf gs =
        Except.ok cs ∧
      lineCmds cs =
        (List.range ((⌈((H - inches_to_points m.top) - inches_to_points m.bottom) /
            inches_to_points ls⌉ - 1).toNat)).map
          (fun k : ℕ =>
            Cmd.line (inches_to_points m.left)
              ((H - inches_to_points m.top) - ((k : ℚ) + 1) * inches_to_points ls)
              (W - inches_to_points m.right)
              ((H - inches_to_points m.top) - ((k : ℚ) + 1) * inches_to_points ls)) ∧
      countLineCmds cs =
        (⌈((H - inches_to_points m.top) - inches_to_points m.bottom) /
            inches_to_points ls⌉ - 1).toNat :=
  lined_page_lineCmds W H m ls ds pn ap wm ht ft cf gs hs

/-- Claim C1, witness: the amended statement at a concrete input (2in
square page, no margins, 0.5in spacing). -/
theorem C1_lined_line_count_witness :
    (0:ℚ) < 1/2 ∧
    ∃ cs, generate_interior_page ("lined") 144 144 ⟨0, 0, 0, 0⟩ (1/2) (1/2)
        none false ("") ("") ("") none none =
        Except.ok cs ∧
      lineCmds cs =
        (List.range ((⌈((144 - inches_to_points (0:ℚ)) - inches_to_points 0) /
            inches_to_points (1/2)⌉ - 1).toNat)).map
          (fun k : ℕ =>
            Cmd.line (inches_to_points (0:ℚ))
              ((144 - inches_to_points (0:ℚ)) - ((k : ℚ) + 1) * inches_to_points (1/2))
              (144 - inches_to_points (0:ℚ))
              ((144 - inches_to_points (0:ℚ)) - ((k : ℚ) + 1) * inches_to_points (1/2))) ∧
      countLineCmds cs =
        (⌈((144 - inches_to_points (0:ℚ)) - inches_to_points 0) /
            inches_to_points (1/2)⌉ - 1).toNat :=
  ⟨by norm_num,
   C1_lined_line_count 144 144 ⟨0, 0, 0, 0⟩ (1/2) (1/2)
     none false ("") ("") ("") none none (by norm_num)⟩

/-- Claim C2, counterexample.  Margins 4in left and right on a 6in-wide
page make the content rectangle degenerate (`right = 144 < 288 = left`),
yet `generate_interior_page` raises nothing — no `InvalidMarginsError`
exists in the code — and even issues 27 horizontal line draws before
committing the page. -/
theorem C2_counterexample :
    (resolveContentRect 432 648 ⟨4, 4, 1, 1⟩).right <
      (resolveContentRect 432 648 ⟨4, 4, 1, 1⟩).left ∧
    isOkE (generate_interior_page ("lined") 432 648 ⟨4, 4, 1, 1⟩ (1/4) (1/2)
      none false ("") ("") ("") none none) = true ∧
    countLineCmds (okCmds
      (generate_interior_page ("lined") 432 648 ⟨4, 4, 1, 1⟩ (1/4) (1/2)
        none false ("") ("") ("") none none)) = 27 := by
  refine ⟨by norm_num [resolveContentRect, inches_to_points], by decide, ?_⟩
  obtain ⟨cs, hok, _, hcount⟩ :=
    lined_page_lineCmds 432 648 ⟨4, 4, 1, 1⟩ (1/4) (1/2)
      none false ("") ("") ("") none none (by norm_num)
  rw [hok]
  unfold okCmds
  rw [hcount]
  norm_num [inches_to_points]
  all_goals decide

/-- Claim C2, amended.  The code never checks margins and defines no
`InvalidMarginsError`: drawing proceeds on a degenerate rectangle (see
the counterexample).  What does hold is the first half of the claim: for
all valid margins (`left + right < width`, `top + bottom < height`) the
resolved content rectangle satisfies `right > left` and `top > bottom`. -/
theorem C2_content_rect_valid (w h : ℚ) (m : Margins)
    (hlr : m.left + m.right < w) (htb : m.top + m.bottom < h) :
    (resolveContentRect (inches_to_points w) (inches_to_points h) m).left <
      (resolveContentRect (inches_to_points w) (inches_to_points h) m).right ∧
    (resolveContentRect (inches_to_points w) (inches_to_points h) m).bottom <
      (resolveContentRect (inches_to_points w) (inches_to_points h) m).top := by
  simp only [resolveContentRect, inches_to_points]
  constructor <;> linarith

/-- Claim C2, witness: the amended statement for a 6in by 9in page with
0.5in margins. -/
theorem C2_content_rect_valid_witness :
    ((1:ℚ)/2 + 1/2 < 6) ∧ ((1:ℚ)/2 + 1/2 < 9) ∧
    ((resolveContentRect (inches_to_points 6) (inches_to_points 9)
        ⟨1/2, 1/2, 1/2, 1/2⟩).left <
      (resolveContentRect (inches_to_points 6) (inches_to_points 9)
        ⟨1/2, 1/2, 1/2, 1/2⟩).right ∧
     (resolveContentRect (inches_to_points 6) (inches_to_points 9)
        ⟨1/2, 1/2, 1/2, 1/2⟩).bottom <
      (resolveContentRect (inches_to_points 6) (inches_to_points 9)
        ⟨1/2, 1/2, 1/2, 1/2⟩).top) :=
  ⟨by norm_num, by norm_num,
   C2_content_rect_valid 6 9 ⟨1/2, 1/2, 1/2, 1/2⟩ (by norm_num) (by norm_num)⟩

/-- An unsupported pattern kind makes `generate_interior_page` raise,
with the source's `ValueError` message. -/
theorem generate_interior_page_error (t : String) (W H : ℚ) (m : Margins)
    (ls ds : ℚ) (pn : Option ℕ) (ap : Bool) (wm ht ft : String)
    (cf : Option String) (gs : Option ℚ) (hv : ¬ validKind t) :
    generate_interior_page t W H m ls ds pn ap wm ht ft cf gs =
      Except.error ("Unsupported page type: " ++ t) := by
  unfold validKind at hv
  push_neg at hv
  obtain ⟨h1, h2, h3, h4⟩ := hv
  unfold generate_interior_page patternCmds
  rw [if_neg h1, if_neg h2, if_neg h3, if_neg h4]

theorem pageCount_openCanvas_cons (f : String) (cs : List Cmd) :
    pageCount (Cmd.openCanvas f :: cs) = pageCount cs := by
  unfold pageCount
  rw [List.filter_cons_of_neg (by simp [isShowPage])]

/-- The options record of C3's counterexample: a well-formed book whose
interior pattern kind `spiral` is unsupported. -/
def spiralOpts : Options :=
  ⟨("Book"), (""), (""), 1, 6, 9, ("spiral"), 1/2, 1/2, 1/2, 1/2, 1/4, 1/2,
   none, false, (""), (""), (""), (""), (""), (""), ("b.pdf")⟩

/-- Claim C3, counterexample.  With kind `spiral`, `generate_pdf` does
not fail at validation time: the output canvas is opened and a full page
(the cover) is committed before the `ValueError` is raised while drawing
interior page 1 — the failure is detected at draw time, after output
resources exist. -/
theorem C3_counterexample :
    (generate_pdf ⟨false, false, false⟩ spiralOpts).1 = none ∧
    Cmd.openCanvas ("b.pdf") ∈ (generate_pdf ⟨false, false, false⟩ spiralOpts).2 ∧
    Cmd.showPage ∈ (generate_pdf ⟨false, false, false⟩ spiralOpts).2 := by
  refine ⟨by decide, by decide, by decide⟩

/-- Claim C3, amended.  An unsupported pattern kind is detected only at
draw time: for every options record with at least one interior page and
an invalid kind, `generate_pdf` opens the canvas, renders and commits
the complete cover page, and only then hits the `ValueError` in
`generate_interior_page`; the caught exception yields no filename, and
the trace holds exactly one committed page and no save. -/
theorem C3_unsupported_kind_draw_time (env : Env) (o : Options)
    (hv : ¬ validKind o.type) (hp : 0 < o.pages) :
    (generate_pdf env o).1 = none ∧
    (generate_pdf env o).2 =
      Cmd.openCanvas (resolvedOutputName o) ::
        generate_cover_page env o.title o.subtitle o.author
          (inches_to_points o.width) (inches_to_points o.height)
          o.cover_image (resolveCustomFont env o) ∧
    pageCount (generate_pdf env o).2 = 1 ∧
    Cmd.saveCanvas ∉ (generate_pdf env o).2 := by
  obtain ⟨k, hk⟩ : ∃ k, o.pages = k + 1 := ⟨o.pages - 1, by omega⟩
  obtain ⟨rest, hidx⟩ : ∃ rest, pageIndexList o.pages = 1 :: rest := by
    rw [hk]
    unfold pageIndexList
    rw [List.range_succ_eq_map, List.map_cons]
    exact ⟨_, rfl⟩
  have herr := generate_interior_page_error o.type (inches_to_points o.width)
    (inches_to_points o.height) ⟨o.margin_left, o.margin_right, o.margin_top, o.margin_bottom⟩
    o.line_spacing o.dot_spacing
    (if o.page_numbers = true then some 1 else none) o.page_numbers
    o.watermark o.header_text o.footer_text (resolveCustomFont env o) o.grid_spacing hv
  have hloop : interiorPagesLoop o (inches_to_points o.width) (inches_to_points o.height)
      ⟨o.margin_left, o.margin_right, o.margin_top, o.margin_bottom⟩
      (resolveCustomFont env o) (pageIndexList o.pages) =
      ([], some ("Unsupported page type: " ++ o.type)) := by
    rw [hidx]
    unfold interiorPagesLoop
    rw [herr]
  have hpdf : generate_pdf env o =
      (none,
       Cmd.openCanvas (resolvedOutputName o) ::
         (generate_cover_page env o.title o.subtitle o.author
            (inches_to_points o.width) (inches_to_points o.height)
            o.cover_image (resolveCustomFont env o)
          ++ [])) := by
    unfold generate_pdf
    rw [hloop]
  rw [hpdf]
  refine ⟨rfl, by simp, ?_, ?_⟩
  · simp only [List.append_nil]
    rw [pageCount_openCanvas_cons]
    exact cover_pageCount env o.title o.subtitle o.author
      (inches_to_points o.width) (inches_to_points o.height)
      o.cover_image (resolveCustomFont env o)
  · simp only [List.append_nil, List.mem_cons]
    push_neg
    constructor
    · intro h
      cases h
    · intro hmem
      have := saveCanvas_not_in_cover env o.title o.subtitle o.author
        (inches_to_points o.width) (inches_to_points o.height)
        o.cover_image (resolveCustomFont env o)
      exact this hmem

/-- Claim C3, witness for the amended theorem, at the `spiral` options
record. -/
theorem C3_unsupported_kind_draw_time_witness :
    (generate_pdf ⟨false, false, false⟩ spiralOpts).1 = none ∧
    (generate_pdf ⟨false, false, false⟩ spiralOpts).2 =
      Cmd.openCanvas (resolvedOutputName spiralOpts) ::
        generate_cover_page ⟨false, false, false⟩ spiralOpts.title
          spiralOpts.subtitle spiralOpts.author
          (inches_to_points spiralOpts.width) (inches_to_points spiralOpts.height)
          spiralOpts.cover_image (resolveCustomFont ⟨false, false, false⟩ spiralOpts) ∧
    pageCount (generate_pdf ⟨false, false, false⟩ spiralOpts).2 = 1 ∧
    Cmd.saveCanvas ∉ (generate_pdf ⟨false, false, false⟩ spiralOpts).2 :=
  C3_unsupported_kind_draw_time ⟨false, false, false⟩ spiralOpts
    (by decide) (by decide)

/-- Modelled from the spec for comparison with the code: the output-name
derivation as §4.7 step 2 words it, with "trimming" read as removing
whitespace from BOTH ends of the filtered title. -/
def specDerivedOutputName (title : String) : String :=
  String.mk
    ((((title.data.filter (fun c => c.isAlphanum || c = ' ' || c = '_')).dropWhile
        Char.isWhitespace).reverse.dropWhile Char.isWhitespace).reverse.map
      (fun c => if c = ' ' then '_' else c))
  ++ ".pdf"

/-- The options record of C4's counterexample: title with a leading
space, no explicit output name. -/
def nameOpts : Options :=
  ⟨(" A"), (""), (""), 1, 6, 9, ("blank"), 1/2, 1/2, 1/2, 1/2, 1/4, 1/2,
   none, false, (""), (""), (""), (""), (""), (""), ("")⟩

/-- Claim C4, counterexample.  The code right-trims only (`str.rstrip`),
so a leading space in the title survives the filter and becomes a
leading underscore: title `" A"` produces `"_A.pdf"`, while the claimed
derivation (trimming) gives `"A.pdf"`. -/
theorem C4_counterexample :
    (generate_pdf ⟨false, false, false⟩ nameOpts).1 = some ("_A.pdf") ∧
    derived_output_filename (" A") = ("_A.pdf") ∧
    specDerivedOutputName (" A") = ("A.pdf") ∧
    derived_output_filename (" A") ≠ specDerivedOutputName (" A") := by
  refine ⟨by decide, by decide, by decide, by decide⟩

/-- Claim C4, amended.  The output name: the explicit name is used
unchanged when given; otherwise the name is derived from the title by
keeping only alphanumerics, spaces and underscores, trimming TRAILING
whitespace only (Python `rstrip`), replacing each space by an
underscore, and appending `.pdf`.  The resolved name is the one the
canvas is opened with and the one returned on success. -/
theorem C4_output_name (env : Env) (o : Options) :
    (generate_pdf env o).2.head? = some (Cmd.openCanvas (resolvedOutputName o)) ∧
    ((generate_pdf env o).1 = none ∨
      (generate_pdf env o).1 = some (resolvedOutputName o)) ∧
    (o.output ≠ "" → resolvedOutputName o = o.output) ∧
    (o.output = "" → resolvedOutputName o = derived_output_filename o.title) := by
  refine ⟨?_, ?_,
    fun h => by unfold resolvedOutputName; rw [if_pos h],
    fun h => by unfold resolvedOutputName; rw [if_neg (by simp [h])]⟩
  · rcases hp : interiorPagesLoop o (inches_to_points o.width) (inches_to_points o.height)
        ⟨o.margin_left, o.margin_right, o.margin_top, o.margin_bottom⟩
        (resolveCustomFont env o) (pageIndexList o.pages) with ⟨ic, err⟩
    rcases err with _ | e
    · simp [generate_pdf, hp]
    · simp [generate_pdf, hp]
  · rcases hp : interiorPagesLoop o (inches_to_points o.width) (inches_to_points o.height)
        ⟨o.margin_left, o.margin_right, o.margin_top, o.margin_bottom⟩
        (resolveCustomFont env o) (pageIndexList o.pages) with ⟨ic, err⟩
    rcases err with _ | e
    · right
      simp [generate_pdf, hp]
    · left
      simp [generate_pdf, hp]

/-- Claim C4, witness: the amended statement applied at the leading
space options record (derived name `"_A.pdf"`). -/
theorem C4_output_name_witness :
    (generate_pdf ⟨false, false, false⟩ nameOpts).2.head? =
      some (Cmd.openCanvas ("_A.pdf")) := by
  have h := (C4_output_name ⟨false, false, false⟩ nameOpts).1
  rw [show resolvedOutputName nameOpts = ("_A.pdf") from by decide] at h
  exact h

/-- One interior page of the assembled document (the commands the page
loop of `generate_pdf` issues for 1-based index `i`). -/
def interiorPageCmds (o : Options) (cf : Option String) (i : ℕ) : List Cmd :=
  okCmds (generate_interior_page o.type (inches_to_points o.width)
    (inches_to_points o.height)
    ⟨o.margin_left, o.margin_right, o.margin_top, o.margin_bottom⟩
    o.line_spacing o.dot_spacing
    (if o.page_numbers = true then some i else none) o.page_numbers
    o.watermark o.header_text o.footer_text cf o.grid_spacing)

theorem interiorPageCmds_pageCount (o : Options) (cf : Option String) (i : ℕ)
    (hv : validKind o.type) :
    pageCount (interiorPageCmds o cf i) = 1 := by
  obtain ⟨pat, _, heq⟩ := generate_interior_page_shape o.type
    (inches_to_points o.width) (inches_to_points o.height)
    ⟨o.margin_left, o.margin_right, o.margin_top, o.margin_bottom⟩
    o.line_spacing o.dot_spacing
    (if o.page_numbers = true then some i else none) o.page_numbers
    o.watermark o.header_text o.footer_text cf o.grid_spacing hv
  unfold interiorPageCmds
  rw [heq]
  exact generate_interior_page_pageCount o.type
    (inches_to_points o.width) (inches_to_points o.height)
    ⟨o.margin_left, o.margin_right, o.margin_top, o.margin_bottom⟩
    o.line_spacing o.dot_spacing
    (if o.page_numbers = true then some i else none) o.page_numbers
    o.watermark o.header_text o.footer_text cf o.grid_spacing hv _ heq

/-- Claim C5.  For every options record with a supported pattern kind
and positive spacings, the assembled document succeeds and its trace is
exactly: open the canvas, the cover page, the interior pages for indices
1..N in increasing order, the back cover, and the save; the committed
page count is N + 2, each interior page committing exactly once. -/
theorem C5_document_structure (env : Env) (o : Options) (hv : validKind o.type)
    (_hls : 0 < o.line_spacing) (_hds : 0 < o.dot_spacing)
    (_hgs : 0 < o.grid_spacing.getD o.line_spacing) :
    (generate_pdf env o).1 = some (resolvedOutputName o) ∧
    (generate_pdf env o).2 =
      Cmd.openCanvas (resolvedOutputName o) ::
        (generate_cover_page env o.title o.subtitle o.author
          (inches_to_points o.width) (inches_to_points o.height)
          o.cover_image (resolveCustomFont env o)
        ++ ((pageIndexList o.pages).map
              (interiorPageCmds o (resolveCustomFont env o))).flatten
        ++ generate_back_cover_page (inches_to_points o.width)
            (inches_to_points o.height) (resolveCustomFont env o)
        ++ [Cmd.saveCanvas]) ∧
    pageCount (generate_pdf env o).2 = o.pages + 2 ∧
    (∀ i ∈ pageIndexList o.pages,
      pageCount (interiorPageCmds o (resolveCustomFont env o) i) = 1) := by
  have hloop := interiorPagesLoop_ok o (inches_to_points o.width)
    (inches_to_points o.height)
    ⟨o.margin_left, o.margin_right, o.margin_top, o.margin_bottom⟩
    (resolveCustomFont env o) hv (pageIndexList o.pages)
  have hpdf : generate_pdf env o =
      (some (resolvedOutputName o),
       Cmd.openCanvas (resolvedOutputName o) ::
         (generate_cover_page env o.title o.subtitle o.author
            (inches_to_points o.width) (inches_to_points o.height)
            o.cover_image (resolveCustomFont env o)
          ++ ((pageIndexList o.pages).map
                (interiorPageCmds o (resolveCustomFont env o))).flatten
          ++ generate_back_cover_page (inches_to_points o.width)
              (inches_to_points o.height) (resolveCustomFont env o)
          ++ [Cmd.saveCanvas])) := by
    unfold generate_pdf
    rw [hloop]
    rfl
  refine ⟨by rw [hpdf], by rw [hpdf], ?_, fun i _ =>
    interiorPageCmds_pageCount o (resolveCustomFont env o) i hv⟩
  rw [hpdf]
  simp only
  rw [pageCount_openCanvas_cons, pageCount_append, pageCount_append,
    pageCount_append,
    cover_pageCount env o.title o.subtitle o.author
      (inches_to_points o.width) (inches_to_points o.height)
      o.cover_image (resolveCustomFont env o),
    back_cover_pageCount, pageCount_flatten, List.map_map]
  have hmap : (pageIndexList o.pages).map
      (pageCount ∘ interiorPageCmds o (resolveCustomFont env o)) =
      (pageIndexList o.pages).map (fun _ => 1) :=
    List.map_congr_left (fun i _ =>
      interiorPageCmds_pageCount o (resolveCustomFont env o) i hv)
  rw [hmap]
  have hlen : ((pageIndexList o.pages).map (fun _ => (1:ℕ))).sum = o.pages := by
    rw [List.map_const']
    simp [List.sum_replicate, pageIndexList]
  rw [hlen]
  have hsave : pageCount [Cmd.saveCanvas] = 0 := rfl
  rw [hsave]
  omega

/-- The options record of C5's witness: a 2-interior-page blank book. -/
def blankOpts : Options :=
  ⟨("Note"), (""), (""), 2, 6, 9, ("blank"), 1/2, 1/2, 1/2, 1/2, 1/4, 1/2,
   none, false, (""), (""), (""), (""), (""), (""), ("n.pdf")⟩

/-- Claim C5, witness: the document-structure theorem at the blank
2-page options record. -/
theorem C5_document_structure_witness :
    (generate_pdf ⟨false, false, false⟩ blankOpts).1 =
      some (resolvedOutputName blankOpts) ∧
    (generate_pdf ⟨false, false, false⟩ blankOpts).2 =
      Cmd.openCanvas (resolvedOutputName blankOpts) ::
        (generate_cover_page ⟨false, false, false⟩ blankOpts.title
          blankOpts.subtitle blankOpts.author
          (inches_to_points blankOpts.width) (inches_to_points blankOpts.height)
          blankOpts.cover_image (resolveCustomFont ⟨false, false, false⟩ blankOpts)
        ++ ((pageIndexList blankOpts.pages).map
              (interiorPageCmds blankOpts
                (resolveCustomFont ⟨false, false, false⟩ blankOpts))).flatten
        ++ generate_back_cover_page (inches_to_points blankOpts.width)
            (inches_to_points blankOpts.height)
            (resolveCustomFont ⟨false, false, false⟩ blankOpts)
        ++ [Cmd.saveCanvas]) ∧
    pageCount (generate_pdf ⟨false, false, false⟩ blankOpts).2 =
      blankOpts.pages + 2 ∧
    (∀ i ∈ pageIndexList blankOpts.pages,
      pageCount (interiorPageCmds blankOpts
        (resolveCustomFont ⟨false, false, false⟩ blankOpts) i) = 1) :=
  C5_document_structure ⟨false, false, false⟩ blankOpts (by decide)
    (by show (0:ℚ) < 1/4; norm_num)
    (by show (0:ℚ) < 1/2; norm_num)
    (by show (0:ℚ) < 1/4; norm_num)

theorem rotateCount_append (a b : List Cmd) :
    rotateCount (a ++ b) = rotateCount a + rotateCount b := by
  unfold rotateCount
  rw [List.filter_append, List.length_append]

theorem alphaCount_append (a b : List Cmd) :
    alphaCount (a ++ b) = alphaCount a + alphaCount b := by
  unfold alphaCount
  rw [List.filter_append, List.length_append]

/-- Claim C6.  On every interior page with a supported kind: an empty
watermark yields zero rotations and zero opacity changes (in this engine
those occur only in the watermark block); a non-empty watermark yields
exactly one of each, and the page contains the contiguous watermark
block — save state, opacity 0.1, font at size 50, light-gray fill,
translate to the page center, rotate 45 degrees, one centered text draw
of the watermark at the (translated) origin, restore state. -/
theorem C6_watermark (t : String) (W H : ℚ) (m : Margins) (ls ds : ℚ)
    (pn : Option ℕ) (ap : Bool) (wm ht ft : String) (cf : Option String)
    (gs : Option ℚ) (hv : validKind t) :
    ∃ cs, generate_interior_page t W H m ls ds pn ap wm ht ft cf gs =
        Except.ok cs ∧
      rotateCount cs = (if wm = "" then 0 else 1) ∧
      alphaCount cs = (if wm = "" then 0 else 1) ∧
      (wm ≠ "" → ∃ pre suf, cs = pre ++
        [Cmd.saveState,
         Cmd.setFillAlpha (1/10),
         Cmd.setFont (cf.getD ("Helvetica")) 50,
         Cmd.setFillColorRGB (4/5) (4/5) (4/5),
         Cmd.translate (W / 2) (H / 2),
         Cmd.rotate 45,
         Cmd.drawCentredString 0 0 wm,
         Cmd.restoreState] ++ suf) := by
  obtain ⟨pat, hprim, heq⟩ :=
    generate_interior_page_shape t W H m ls ds pn ap wm ht ft cf gs hv
  refine ⟨_, heq, ?_, ?_, ?_⟩
  · rw [rotateCount_append, rotateCount_append, rotateCount_append,
      rotateCount_append, rotateCount_append,
      rotateCount_eq_zero_of_prim pat hprim,
      (watermark_counts wm W H cf).2.2.1,
      (header_counts ht (inches_to_points m.left) H m.top cf).2.2.1,
      (footer_counts ft (inches_to_points m.left) m.bottom cf).2.2.1,
      (pageNumber_counts ap pn W cf).2.2.1]
    have hsp : rotateCount [Cmd.showPage] = 0 := rfl
    rw [hsp]
    simp
  · rw [alphaCount_append, alphaCount_append, alphaCount_append,
      alphaCount_append, alphaCount_append,
      alphaCount_eq_zero_of_prim pat hprim,
      (watermark_counts wm W H cf).2.2.2,
      (header_counts ht (inches_to_points m.left) H m.top cf).2.2.2,
      (footer_counts ft (inches_to_points m.left) m.bottom cf).2.2.2,
      (pageNumber_counts ap pn W cf).2.2.2]
    have hsp : alphaCount [Cmd.showPage] = 0 := rfl
    rw [hsp]
    simp
  · intro hwm
    refine ⟨pat,
      headerCmds ht (inches_to_points m.left) H m.top cf
        ++ footerCmds ft (inches_to_points m.left) m.bottom cf
        ++ pageNumberCmds ap pn W cf
        ++ [Cmd.showPage], ?_⟩
    unfold watermarkCmds
    rw [if_neg hwm]
    simp [List.append_assoc]

/-- Claim C6, witness: a blank page with watermark "DRAFT" (and one with
an empty watermark is covered by the same instantiation pattern, the
`if` branches both being stated). -/
theorem C6_watermark_witness :
    ∃ cs, generate_interior_page ("blank") 432 648 ⟨1/2, 1/2, 1/2, 1/2⟩
        (1/4) (1/2) none false ("DRAFT") ("") ("") none none =
        Except.ok cs ∧
      rotateCount cs = (if ("DRAFT" : String) = "" then 0 else 1) ∧
      alphaCount cs = (if ("DRAFT" : String) = "" then 0 else 1) ∧
      (("DRAFT" : String) ≠ "" → ∃ pre suf, cs = pre ++
        [Cmd.saveState,
         Cmd.setFillAlpha (1/10),
         Cmd.setFont (Option.getD none ("Helvetica")) 50,
         Cmd.setFillColorRGB (4/5) (4/5) (4/5),
         Cmd.translate ((432:ℚ) / 2) ((648:ℚ) / 2),
         Cmd.rotate 45,
         Cmd.drawCentredString 0 0 ("DRAFT"),
         Cmd.restoreState] ++ suf) :=
  C6_watermark ("blank") 432 648 ⟨1/2, 1/2, 1/2, 1/2⟩ (1/4) (1/2)
    none false ("DRAFT") ("") ("") none none (by decide)

/-- The options record of C7: zero interior pages, otherwise valid. -/
def zeroOpts : Options :=
  ⟨("J"), (""), (""), 0, 6, 9, ("blank"), 1/2, 1/2, 1/2, 1/2, 1/4, 1/2,
   none, false, (""), (""), (""), (""), (""), (""), ("")⟩

/-- Claim C7, counterexample.  Called with `pages = 0`, `generate_pdf`
itself raises nothing: it opens the canvas, produces a 2-page document
(cover and back cover), saves it and returns the resolved filename — an
output file IS produced and no `ValidationError` exists at this layer. -/
theorem C7_counterexample :
    (generate_pdf ⟨false, false, false⟩ zeroOpts).1 = some ("J.pdf") ∧
    Cmd.saveCanvas ∈ (generate_pdf ⟨false, false, false⟩ zeroOpts).2 ∧
    pageCount (generate_pdf ⟨false, false, false⟩ zeroOpts).2 = 2 := by
  refine ⟨by decide, by decide, by decide⟩

/-- Claim C7, amended.  The `pages > 0` check lives in the GUI's
`on_generate`, which rejects the record before `generate_pdf` is ever
called (so no file arises on that path); `generate_pdf` itself performs
no validation and, invoked directly with `pages = 0`, opens the output,
commits cover and back cover, saves, and reports success. -/
theorem C7_zero_pages (env : Env) (o : Options) (hz : o.pages = 0) :
    ¬ on_generate_valid o ∧
    (generate_pdf env o).1 = some (resolvedOutputName o) ∧
    pageCount (generate_pdf env o).2 = 2 := by
  have hpdf : generate_pdf env o =
      (some (resolvedOutputName o),
       Cmd.openCanvas (resolvedOutputName o) ::
         (generate_cover_page env o.title o.subtitle o.author
            (inches_to_points o.width) (inches_to_points o.height)
            o.cover_image (resolveCustomFont env o)
          ++ []
          ++ generate_back_cover_page (inches_to_points o.width)
              (inches_to_points o.height) (resolveCustomFont env o)
          ++ [Cmd.saveCanvas])) := by
    unfold generate_pdf
    rw [hz]
    rfl
  refine ⟨fun hval => by obtain ⟨_, hp, _⟩ := hval; omega, by rw [hpdf], ?_⟩
  rw [hpdf]
  simp only [List.append_nil]
  rw [pageCount_openCanvas_cons, pageCount_append, pageCount_append,
    cover_pageCount env o.title o.subtitle o.author
      (inches_to_points o.width) (inches_to_points o.height)
      o.cover_image (resolveCustomFont env o),
    back_cover_pageCount]
  have hs : pageCount [Cmd.saveCanvas] = 0 := rfl
  rw [hs]

/-- Claim C7, witness for the amended theorem, at the zero-page record. -/
theorem C7_zero_pages_witness :
    ¬ on_generate_valid zeroOpts ∧
    (generate_pdf ⟨false, false, false⟩ zeroOpts).1 =
      some (resolvedOutputName zeroOpts) ∧
    pageCount (generate_pdf ⟨false, false, false⟩ zeroOpts).2 = 2 :=
  C7_zero_pages ⟨false, false, false⟩ zeroOpts rfl

/-- Claim C8.  Pattern rendering is deterministic: the emitted command
sequence is a pure function of the kind, the content rectangle and the
spacings — two renders with equal inputs give equal ordered command
sequences (the embedding reads no other state, matching the source,
whose pattern section consumes only its arguments). -/
theorem C8_pattern_deterministic (t t' : String) (r r' : ContentRect)
    (ls ds ls' ds' : ℚ) (gs gs' : Option ℚ)
    (h1 : t = t') (h2 : r = r') (h3 : ls = ls') (h4 : ds = ds')
    (h5 : gs = gs') :
    patternCmds t r ls ds gs = patternCmds t' r' ls' ds' gs' := by
  subst h1 h2 h3 h4 h5
  rfl

/-- Claim C8, witness: two renders of the same lined pattern agree. -/
theorem C8_pattern_deterministic_witness :
    ("lined" : String) = ("lined") ∧
    patternCmds ("lined") ⟨36, 396, 612, 36⟩ (1/4) (1/2) none =
      patternCmds ("lined") ⟨36, 396, 612, 36⟩ (1/4) (1/2) none :=
  ⟨rfl, C8_pattern_deterministic ("lined") ("lined") ⟨36, 396, 612, 36⟩
    ⟨36, 396, 612, 36⟩ (1/4) (1/2) (1/4) (1/2) none none
    rfl rfl rfl rfl rfl⟩

/-- Claim C9.  For a `grid` page with `grid_spacing = None`, the grid is
drawn with the line-spacing value: the page equals the one generated
with `grid_spacing = some line_spacing`, and the pattern is the
horizontal pass followed by the vertical pass, both stepped by
`inches_to_points line_spacing`. -/
theorem C9_grid_spacing_default (W H : ℚ) (m : Margins) (ls ds : ℚ)
    (pn : Option ℕ) (ap : Bool) (wm ht ft : String) (cf : Option String) :
    generate_interior_page ("grid") W H m ls ds pn ap wm ht ft cf none =
      generate_interior_page ("grid") W H m ls ds pn ap wm ht ft cf (some ls) ∧
    patternCmds ("grid") (resolveContentRect W H m) ls ds none =
      Except.ok
        (Cmd.setLineWidth (1/2) ::
          (linedLoop (resolveContentRect W H m).left
            (resolveContentRect W H m).right
            (resolveContentRect W H m).bottom (inches_to_points ls)
            (descCount (resolveContentRect W H m).bottom (inches_to_points ls)
              ((resolveContentRect W H m).top - inches_to_points ls))
            ((resolveContentRect W H m).top - inches_to_points ls)
          ++ gridVLoop (resolveContentRect W H m).right
            (resolveContentRect W H m).top
            (resolveContentRect W H m).bottom (inches_to_points ls)
            (ascCount (resolveContentRect W H m).right (inches_to_points ls)
              ((resolveContentRect W H m).left + inches_to_points ls))
            ((resolveContentRect W H m).left + inches_to_points ls))) :=
  ⟨rfl, rfl⟩

/-- Claim C10.  For any positive spacing, every pattern loop terminates:
its fuel-indexed embedding is stable at the canonical iteration count
(all larger fuels give the same command list).  And a spacing so large
that zero lines or dots fit yields an empty pattern without error: a
spacing at least the content height empties the lined loop, a spacing
whose half-step start already reaches `top` (resp. `right`) empties the
dotted loop (resp. each dot row), and a spacing at least the content
width empties the grid's vertical pass. -/
theorem C10_loops_terminate (l r tp b s : ℚ) (hs : 0 < s) :
    (∀ y, ∃ n, ∀ fuel, n ≤ fuel →
      linedLoop l r b s fuel y = linedLoop l r b s n y) ∧
    (∀ x, ∃ n, ∀ fuel, n ≤ fuel →
      gridVLoop r tp b s fuel x = gridVLoop r tp b s n x) ∧
    (∀ y x, ∃ n, ∀ fuel, n ≤ fuel →
      dotRow r s y fuel x = dotRow r s y n x) ∧
    (∀ rf y, ∃ n, ∀ fuel, n ≤ fuel →
      dottedLoop l r tp s rf fuel y = dottedLoop l r tp s rf n y) ∧
    (tp - b ≤ s → ∀ fuel, linedLoop l r b s fuel (tp - s) = []) ∧
    (tp - b ≤ s / 2 → ∀ rf fuel,
      dottedLoop l r tp s rf fuel (b + s / 2) = []) ∧
    (r - l ≤ s / 2 → ∀ y fuel, dotRow r s y fuel (l + s / 2) = []) ∧
    (r - l ≤ s → ∀ fuel, gridVLoop r tp b s fuel (l + s) = []) := by
  refine ⟨fun y => ⟨descCount b s y, fun fuel hf =>
      linedLoop_stable l r b s hs y fuel hf⟩,
    fun x => ⟨ascCount r s x, fun fuel hf =>
      gridVLoop_stable r tp b s hs x fuel hf⟩,
    fun y x => ⟨ascCount r s x, fun fuel hf =>
      dotRow_stable r s y hs x fuel hf⟩,
    fun rf y => ⟨ascCount tp s y, fun fuel hf =>
      dottedLoop_stable l r tp s rf hs y fuel hf⟩,
    ?_, ?_, ?_, ?_⟩
  · intro hbig fuel
    cases fuel with
    | zero => rfl
    | succ n =>
      have hnot : ¬ b < tp - s := by linarith
      simp [linedLoop, hnot]
  · intro hbig rf fuel
    cases fuel with
    | zero => rfl
    | succ n =>
      have hnot : ¬ b + s / 2 < tp := by linarith
      simp [dottedLoop, hnot]
  · intro hbig y fuel
    cases fuel with
    | zero => rfl
    | succ n =>
      have hnot : ¬ l + s / 2 < r := by linarith
      simp [dotRow, hnot]
  · intro hbig fuel
    cases fuel with
    | zero => rfl
    | succ n =>
      have hnot : ¬ l + s < r := by linarith
      simp [gridVLoop, hnot]

/-- Claim C10, witness: the loop-termination statement for a concrete
1in-square content rectangle with a 2in spacing, where every
empty-pattern antecedent holds (zero lines and zero dots fit). -/
theorem C10_loops_terminate_witness :
    (∀ y, ∃ n, ∀ fuel, n ≤ fuel →
      linedLoop 0 72 0 (144:ℚ) fuel y = linedLoop 0 72 0 144 n y) ∧
    (∀ x, ∃ n, ∀ fuel, n ≤ fuel →
      gridVLoop 72 72 0 (144:ℚ) fuel x = gridVLoop 72 72 0 144 n x) ∧
    (∀ y x, ∃ n, ∀ fuel, n ≤ fuel →
      dotRow 72 (144:ℚ) y fuel x = dotRow 72 144 y n x) ∧
    (∀ rf y, ∃ n, ∀ fuel, n ≤ fuel →
      dottedLoop 0 72 72 (144:ℚ) rf fuel y = dottedLoop 0 72 72 144 rf n y) ∧
    ((72:ℚ) - 0 ≤ 144 → ∀ fuel, linedLoop 0 72 0 (144:ℚ) fuel (72 - 144) = []) ∧
    ((72:ℚ) - 0 ≤ 144 / 2 → ∀ rf fuel,
      dottedLoop 0 72 72 (144:ℚ) rf fuel (0 + 144 / 2) = []) ∧
    ((72:ℚ) - 0 ≤ 144 / 2 → ∀ y fuel,
      dotRow 72 (144:ℚ) y fuel (0 + 144 / 2) = []) ∧
    ((72:ℚ) - 0 ≤ 144 → ∀ fuel, gridVLoop 72 72 0 (144:ℚ) fuel (0 + 144) = []) :=
  C10_loops_terminate 0 72 72 0 144 (by norm_num)

end BookMaker
